import Mathlib

/-!
Shallow embedding of the CDEK carrier API client and its credential cache
(`src/cdek/auth.js`, `src/cdek/api.js`) together with the two pieces of route
logic the claims reference (`formatAddress` and the tariff-751 pickup-point
discovery block of `src/routes/delivery.js`).

JavaScript values that flow into JSON request bodies are modelled by the
mutual inductive `JsVal`/`JsArr`/`JsFields` (arrays and objects carry their
own list types so that every recursion below is structural and
kernel-reducible).  `JsVal.vnan` stands for the IEEE NaN produced by a failed
`Number(...)` conversion; `JsVal.vundef` stands for `undefined`.  Numbers are
modelled as `Int` (every numeric value the claims exercise is integral).
Fallible code returns `Except CdekError`; each operation additionally returns
the updated auth-cache state and the list of network calls it issued.
-/

mutual

/-- A JavaScript value, as it appears in request/response bodies. -/
inductive JsVal where
  | vstr (s : String)
  | vnum (n : Int)
  | vnan
  | vinf
  | vneginf
  | vnull
  | vbool (b : Bool)
  | vundef
  | varr (xs : JsArr)
  | vobj (fs : JsFields)

/-- A JavaScript array of `JsVal`s. -/
inductive JsArr where
  | nil
  | cons (head : JsVal) (tail : JsArr)

/-- The ordered key/value fields of a JavaScript object. -/
inductive JsFields where
  | nil
  | cons (key : String) (val : JsVal) (tail : JsFields)

end

/-- Length of a modelled JS array (`xs.length`). -/
def arrLength : JsArr → Nat
  | .nil => 0
  | .cons _ t => arrLength t + 1

/-- `Array.prototype.map` with a fixed function. -/
def arrMap (f : JsVal → JsVal) : JsArr → JsArr
  | .nil => .nil
  | .cons h t => .cons (f h) (arrMap f t)

/-- `Array.prototype.filter` with a fixed predicate. -/
def arrFilter (p : JsVal → Bool) : JsArr → JsArr
  | .nil => .nil
  | .cons h t => if p h then .cons h (arrFilter p t) else arrFilter p t

/-- Concatenation of field lists (models assigning extra fields to an object
literal after its construction, which appends in insertion order). -/
def fieldsApp : JsFields → JsFields → JsFields
  | .nil, b => b
  | .cons k v t, b => .cons k v (fieldsApp t b)

/-- First field with the given key, if any. -/
def fieldsLookup : JsFields → String → Option JsVal
  | .nil, _ => none
  | .cons k v t, key => if k == key then some v else fieldsLookup t key

/-- The keys of a field list, in order. -/
def fieldsKeys : JsFields → List String
  | .nil => []
  | .cons k _ t => k :: fieldsKeys t

/-- Field access on an object value; `none` on non-objects. -/
def objGet (v : JsVal) (k : String) : Option JsVal :=
  match v with
  | .vobj fs => fieldsLookup fs k
  | _ => none

/-- Top-level keys of an object value. -/
def objKeys (v : JsVal) : List String :=
  match v with
  | .vobj fs => fieldsKeys fs
  | _ => []

/-- JS property access `v[k]`: `undefined` when absent or not an object. -/
def getField (v : JsVal) (k : String) : JsVal :=
  match objGet v k with
  | none => .vundef
  | some x => x

/-- JS truthiness of a value. -/
def jsTruthy : JsVal → Bool
  | .vstr s => s != ""
  | .vnum n => n != 0
  | .vnan => false
  | .vinf => true
  | .vneginf => true
  | .vnull => false
  | .vbool b => b
  | .vundef => false
  | .varr _ => true
  | .vobj _ => true

/-- JS strict equality against the literal `true` (`x === true`). -/
def isTrueVal : JsVal → Bool
  | .vbool true => true
  | _ => false

/-- JS `a || b` on values. -/
def jsOrVal (a b : JsVal) : JsVal := if jsTruthy a then a else b

/-- `Number(x)` outcome for a package dimension: `some n` when the conversion
yields the finite number `n`, `none` when it yields NaN.  Embedded into a
body value (`NaN` survives until serialization, where it becomes `null`). -/
def numOrNan : Option Int → JsVal
  | some n => .vnum n
  | none => .vnan

/-- The outcome of a JS `Number(...)` conversion of a package dimension: a
finite integer value, a non-finite infinity (`Number("Infinity")`,
`Number(1e999)`, ...), or NaN. -/
inductive JsNum where
  | fin (n : Int)
  | posInf
  | negInf
  | nan

/-- JS `isNaN(x)` on a conversion outcome: true only for NaN — the
infinities pass. -/
def jsIsNaN : JsNum → Bool
  | .nan => true
  | _ => false

/-- The conversion outcome embedded as a body value (the infinities and NaN
survive until serialization, where `JSON.stringify` renders them `null`). -/
def numVal : JsNum → JsVal
  | .fin n => .vnum n
  | .posInf => .vinf
  | .negInf => .vneginf
  | .nan => .vnan

/-- JS `v || d` for an optional number (absent and `0` are falsy). -/
def jsOrI (v : Option Int) (d : Int) : Int :=
  match v with
  | none => d
  | some n => if n == 0 then d else n

/-- Truthiness test for an optional string (`undefined` and `""` are falsy). -/
def strFalsy : Option String → Bool
  | none => true
  | some s => s == ""

/-- Truthiness test for an optional number (`undefined` and `0` are falsy). -/
def intFalsy : Option Int → Bool
  | none => true
  | some n => n == 0

/-- The whitespace characters trimmed by `String.prototype.trim` that the
claims exercise. -/
def isWs (c : Char) : Bool := c == ' ' || c == '\t' || c == '\n' || c == '\r'

/-- JS `s.trim()`. -/
def jsTrim (s : String) : String :=
  String.mk (((s.data.dropWhile isWs).reverse.dropWhile isWs).reverse)

/-- Does the second list start with the first one? -/
def hasLead : List Char → List Char → Bool
  | [], _ => true
  | _ :: _, [] => false
  | p :: ps, c :: cs => p == c && hasLead ps cs

/-- Does `s` contain `pat` as a contiguous run? -/
def listIncludes (pat : List Char) : List Char → Bool
  | [] => hasLead pat []
  | c :: cs => hasLead pat (c :: cs) || listIncludes pat cs

/-- JS `s.includes(pat)`. -/
def strIncludes (s pat : String) : Bool := listIncludes pat.data s.data

/-- JS `s.startsWith(pre)`. -/
def leadsWith (s pre : String) : Bool := hasLead pre.data s.data

/-- JSON string escaping for one character (the escapes the claims can hit). -/
def escChar (c : Char) : List Char :=
  if c == '"' then ['\\', '"']
  else if c == '\\' then ['\\', '\\']
  else if c == '\n' then ['\\', 'n']
  else [c]

/-- JSON string escaping. -/
def escList : List Char → List Char
  | [] => []
  | c :: cs => escChar c ++ escList cs

/-- A JSON string literal for `s`. -/
def jsonQuote (s : String) : String :=
  String.mk ('"' :: (escList s.data ++ ['"']))

mutual

/-- `JSON.stringify` on a value (used by the client only on parsed error
payloads, which contain no `undefined`; `NaN` serializes as `null`). -/
def stringifyJs : JsVal → String
  | .vstr s => jsonQuote s
  | .vnum n => toString n
  | .vnan => "null"
  | .vinf => "null"
  | .vneginf => "null"
  | .vnull => "null"
  | .vbool true => "true"
  | .vbool false => "false"
  | .vundef => "null"
  | .varr xs => "[" ++ stringifyArrItems xs ++ "]"
  | .vobj fs => "\x7b" ++ stringifyObjItems fs ++ "\x7d"

/-- Comma-separated serialization of array elements. -/
def stringifyArrItems : JsArr → String
  | .nil => ""
  | .cons x .nil => stringifyJs x
  | .cons x (.cons y t) => stringifyJs x ++ "," ++ stringifyArrItems (.cons y t)

/-- Comma-separated serialization of object fields. -/
def stringifyObjItems : JsFields → String
  | .nil => ""
  | .cons k v .nil => jsonQuote k ++ ":" ++ stringifyJs v
  | .cons k v (.cons k2 v2 t) =>
      jsonQuote k ++ ":" ++ stringifyJs v ++ "," ++ stringifyObjItems (.cons k2 v2 t)

end

mutual

/-- JS `String(x)` conversion. -/
def jsToStringVal : JsVal → String
  | .vstr s => s
  | .vnum n => toString n
  | .vnan => "NaN"
  | .vinf => "Infinity"
  | .vneginf => "-Infinity"
  | .vnull => "null"
  | .vbool true => "true"
  | .vbool false => "false"
  | .vundef => "undefined"
  | .varr xs => joinParts xs
  | .vobj _ => "[object Object]"

/-- `Array.prototype.toString`: elements joined by commas, with `null` and
`undefined` elements rendered empty. -/
def joinParts : JsArr → String
  | .nil => ""
  | .cons x .nil => partStr x
  | .cons x (.cons y t) => partStr x ++ "," ++ joinParts (.cons y t)

/-- One element of an array join. -/
def partStr : JsVal → String
  | .vnull => ""
  | .vundef => ""
  | v => jsToStringVal v

end

mutual

/-- `JSON.parse(JSON.stringify(v))`: drops object fields whose value is
`undefined` and turns `NaN` (and `undefined` array elements) into `null`. -/
def cleanVal : JsVal → JsVal
  | .vstr s => .vstr s
  | .vnum n => .vnum n
  | .vnan => .vnull
  | .vinf => .vnull
  | .vneginf => .vnull
  | .vnull => .vnull
  | .vbool b => .vbool b
  | .vundef => .vundef
  | .varr xs => .varr (cleanArr xs)
  | .vobj fs => .vobj (cleanFields fs)

/-- Round-tripping of array elements. -/
def cleanArr : JsArr → JsArr
  | .nil => .nil
  | .cons x t =>
      .cons (match x with | .vundef => .vnull | v => cleanVal v) (cleanArr t)

/-- Round-tripping of object fields. -/
def cleanFields : JsFields → JsFields
  | .nil => .nil
  | .cons k v t =>
      match v with
      | .vundef => cleanFields t
      | v => .cons k (cleanVal v) (cleanFields t)

end

/-- A decimal digit. -/
def isDigitCh (c : Char) : Bool := '0' ≤ c && c ≤ '9'

/-- `s.replace(/\.\d\x7b3\x7d/, '')`: removes the first occurrence of a dot
followed by three digits (stripping the sub-second fraction of a supplied
ISO timestamp). -/
def stripMillisChars : List Char → List Char
  | [] => []
  | '.' :: d1 :: d2 :: d3 :: rest =>
      if isDigitCh d1 && isDigitCh d2 && isDigitCh d3 then rest
      else '.' :: stripMillisChars (d1 :: d2 :: d3 :: rest)
  | c :: cs => c :: stripMillisChars cs

/-- String-level wrapper for `stripMillisChars`. -/
def stripMillis (s : String) : String := String.mk (stripMillisChars s.data)

/-- `URLSearchParams(...).toString()` for the key/value pairs the claims use
(all of which consist of unreserved characters, so no percent-encoding). -/
def urlParams : List (String × String) → String
  | [] => ""
  | [(k, v)] => k ++ "=" ++ v
  | (k, v) :: rest => k ++ "=" ++ v ++ "&" ++ urlParams rest

/-- The errors the client can raise.  In the source they are all `Error`
objects distinguished by their message; the constructors keep the data the
message is built from.  `typeError` models the runtime `TypeError` that JS
would raise when `.map` is applied to a non-array (never reached on the
inputs the claims exercise). -/
inductive CdekError where
  | authError (status : Nat) (bodyText : String)
  | apiError (status : Nat) (errorData : JsVal)
  | validationError (msg : String)
  | typeError (msg : String)

/-- The `message` of the thrown `Error`, mirroring the template literals of
the source (`auth.js` line 129, `api.js` line 65). -/
def CdekError.message : CdekError → String
  | .authError st body => "Ошибка авторизации: " ++ toString st ++ " " ++ body
  | .apiError st dat => "CDEK API Error (" ++ toString st ++ "): " ++ stringifyJs dat
  | .validationError m => m
  | .typeError m => m

/-- Outcome of a POST to the carrier's `/oauth/token` endpoint: either a
non-success HTTP status with the raw response text, or a parsed success body
(`access_token` plus optional `expires_in`, in seconds). -/
inductive TokenResponse where
  | httpError (status : Nat) (bodyText : String)
  | success (accessTok : String) (expiresIn : Option Int)

/-- The credential cache (`CDEKAuth`): `this.token` / `this.tokenExpiresAt`,
both initially `null`.  Expiry instants are milliseconds since the epoch. -/
structure AuthState where
  token : Option String
  tokenExpiresAt : Option Int

/-- A carrier HTTP request as issued by the `request` primitive. -/
structure Req where
  path : String
  method : String
  body : Option JsVal
  headers : List (String × String)

/-- One network round trip: a token exchange or a carrier API call. -/
inductive NetCall where
  | tokenExchange
  | carrier (r : Req)

/-- A carrier endpoint response: `errorData` is the parsed-or-wrapped error
payload used when the status is non-success, `jsonBody` the parsed body used
on success. -/
structure HttpResponse where
  status : Nat
  errorData : JsVal
  jsonBody : JsVal

/-- `fetch` `Response.ok`: status in the 200-299 range. -/
def respOk (status : Nat) : Bool := 200 ≤ status && status < 300

/-- The ambient world of a call: the clock (`Date.now()`), the locally
generated ISO timestamp `calculateDeliveryByTariff` builds when no date is
supplied, what the token endpoint would answer, and what each carrier
endpoint would answer. -/
structure Env where
  now : Int
  nowIso : String
  tokenResp : TokenResponse
  transport : Req → HttpResponse

/-- The cached-token validity test of `getToken` (`auth.js` line 109):
`this.token && this.tokenExpiresAt && Date.now() < this.tokenExpiresAt`,
with JS truthiness (an empty token string or a zero expiry are falsy). -/
def tokenCacheHit (now : Int) (s : AuthState) : Bool :=
  (match s.token with | none => false | some t => t != "") &&
  (match s.tokenExpiresAt with | none => false | some e => e != 0) &&
  decide (now < s.tokenExpiresAt.getD 0)

/-- `CDEKAuth.getToken` (`auth.js` lines 107-145).  Returns the token (or the
authorization error), the updated cache, and whether a token-exchange network
call was performed.  On success the stored expiry is
`Date.now() + (expires_in || 3600) * 1000 - 60000` (the 60-second margin). -/
def getToken (env : Env) (s : AuthState) :
    Except CdekError String × AuthState × Bool :=
  if tokenCacheHit env.now s then (.ok (s.token.getD ""), s, false)
  else
    match env.tokenResp with
    | .httpError st body => (.error (.authError st body), s, true)
    | .success tok expIn =>
        (.ok tok, ⟨some tok, some (env.now + jsOrI expIn 3600 * 1000 - 60000)⟩, true)

/-- Result type of a client operation: outcome, updated auth cache, and the
network calls issued (in order). -/
abbrev OpResult := Except CdekError JsVal × AuthState × List NetCall

/-- `CDEKApiClient.request` (`api.js` lines 19-69): obtain a token (counting
the exchange when one happens), issue the carrier call, and on a non-success
status fail with the `CDEK API Error` carrying status and parsed payload. -/
def doRequest (env : Env) (s : AuthState) (r : Req) : OpResult :=
  match getToken env s with
  | (.error e, s1, called) =>
      (.error e, s1, if called then [NetCall.tokenExchange] else [])
  | (.ok _, s1, called) =>
      let pre : List NetCall := if called then [NetCall.tokenExchange] else []
      let resp := env.transport r
      if respOk resp.status then (.ok resp.jsonBody, s1, pre ++ [NetCall.carrier r])
      else (.error (.apiError resp.status resp.errorData), s1, pre ++ [NetCall.carrier r])

/-- A location code as supplied by a caller: a number or a string. -/
inductive CodeVal where
  | int (n : Int)
  | str (s : String)

/-- JS `String(code)` for a location code. -/
def jsToStr : CodeVal → String
  | .int n => toString n
  | .str s => s

/-- A caller-supplied location `(code, address)`.  The address is kept as an
optional string; a non-string address (rejected by the source's
`typeof === 'string'` guard) is modelled as `none`. -/
structure RawLocation where
  code : CodeVal
  address : Option String

/-- A caller-supplied package, each dimension recorded as the outcome of its
`Number(...)` conversion — finite, infinite, or NaN. -/
structure RawPackage where
  weight : JsNum
  length : JsNum
  width : JsNum
  height : JsNum

/-- Parameters of `calculateDelivery` (the unused destructured fields
`date`, `type`, `currency`, `lang`, `additional_order_types` are omitted:
the source never reads them). -/
structure QuoteParams where
  fromLocation : RawLocation
  toLocation : RawLocation
  packages : List RawPackage

/-- The message of the package-dimension validation error. -/
def nanMsg : String := "Неверные числовые значения в параметрах посылки"

/-- The `isNaN(weight) || isNaN(length) || isNaN(width) || isNaN(height)`
guard of `api.js` lines 161/273.  `isNaN` is false on the infinities, so a
non-finite `Number(...)` outcome passes this guard. -/
def pkgNaN (pkg : RawPackage) : Bool :=
  jsIsNaN pkg.weight || jsIsNaN pkg.length || jsIsNaN pkg.width ||
    jsIsNaN pkg.height

/-- The `packages.map(...)` of `api.js` lines 155-171 / 267-283: convert the
four dimensions with `Number`, throw when any conversion is NaN (only NaN —
an infinite outcome passes), and build the package object.  Evaluation is
left to right; the first invalid package wins. -/
def validatePackage (pkg : RawPackage) : Except CdekError JsVal :=
  if pkgNaN pkg then .error (.validationError nanMsg)
  else
    .ok (.vobj (.cons "weight" (numVal pkg.weight)
      (.cons "length" (numVal pkg.length)
      (.cons "width" (numVal pkg.width)
      (.cons "height" (numVal pkg.height) .nil)))))

/-- Sequential mapping of `validatePackage` over the package list. -/
def validatePackages : List RawPackage → Except CdekError JsArr
  | [] => .ok .nil
  | pkg :: rest =>
      match validatePackage pkg with
      | .error e => .error e
      | .ok v =>
          match validatePackages rest with
          | .error e => .error e
          | .ok vs => .ok (.cons v vs)

/-- The body built by `CDEKApiClient.calculateDelivery` (`api.js` lines
116-195): minimal request with string-coerced codes only (addresses
deliberately omitted), validated packages, an emptiness check, and the
`JSON.parse(JSON.stringify(...))` round trip. -/
def calculateDeliveryBody (p : QuoteParams) : Except CdekError JsVal :=
  match validatePackages p.packages with
  | .error e => .error e
  | .ok pkgs =>
      if arrLength pkgs == 0 then
        .error (.validationError "packages должен быть непустым массивом")
      else
        .ok (cleanVal (.vobj (.cons "from_location"
          (.vobj (.cons "code" (.vstr (jsToStr p.fromLocation.code)) .nil))
          (.cons "to_location"
            (.vobj (.cons "code" (.vstr (jsToStr p.toLocation.code)) .nil))
            (.cons "packages" (.varr pkgs) .nil)))))

/-- `CDEKApiClient.calculateDelivery`: build the body (failing before any
network call on invalid input), then POST it to `/calculator/tarifflist`. -/
def calculateDelivery (env : Env) (s : AuthState) (p : QuoteParams) : OpResult :=
  match calculateDeliveryBody p with
  | .error e => (.error e, s, [])
  | .ok body => doRequest env s ⟨"/calculator/tarifflist", "POST", some body, []⟩

/-- An additional-service entry (`{code, parameter}` taken verbatim). -/
structure ServiceVal where
  code : JsVal
  parameter : JsVal

/-- Parameters of `calculateDeliveryByTariff`.  `tariffCode` and `currency`
are recorded as the outcomes of their `Number(...)` conversions; `currency`
defaults to `1` when absent. -/
structure TariffParams where
  tariffCode : Option Int
  fromLocation : RawLocation
  toLocation : RawLocation
  packages : List RawPackage
  services : List ServiceVal
  date : Option String
  currency : Option Int
  shipmentPoint : JsVal
  deliveryPoint : JsVal

/-- The date field: the locally generated ISO timestamp when none is
supplied, otherwise the supplied one with its sub-second fraction removed
(`api.js` lines 227-243). -/
def fmtDate (nowIso : String) (date : Option String) : String :=
  match date with
  | none => nowIso
  | some d => stripMillis d

/-- A location object with the string-coerced code and, when the address is
a non-blank string, its trimmed address (`api.js` lines 246-258). -/
def locWithAddress (loc : RawLocation) : JsVal :=
  match loc.address with
  | some a =>
      if jsTrim a == "" then .vobj (.cons "code" (.vstr (jsToStr loc.code)) .nil)
      else .vobj (.cons "code" (.vstr (jsToStr loc.code))
        (.cons "address" (.vstr (jsTrim a)) .nil))
  | none => .vobj (.cons "code" (.vstr (jsToStr loc.code)) .nil)

/-- The `services.map(svc => (\x7bcode, parameter\x7d))` of `api.js` 288-291. -/
def svcArr : List ServiceVal → JsArr
  | [] => .nil
  | svc :: rest => .cons (.vobj (.cons "code" svc.code
      (.cons "parameter" svc.parameter .nil))) (svcArr rest)

/-- The body built by `CDEKApiClient.calculateDeliveryByTariff` (`api.js`
lines 213-303): full body with tariff code, date, currency, language,
locations with optional addresses, validated packages, then conditionally
appended `services`, `shipment_point`, `delivery_point`, and the
`JSON.parse(JSON.stringify(...))` round trip. -/
def calcByTariffBody (nowIso : String) (p : TariffParams) : Except CdekError JsVal :=
  match validatePackages p.packages with
  | .error e => .error e
  | .ok pkgs =>
      let svcFields : JsFields :=
        if p.services.length > 0 then .cons "services" (.varr (svcArr p.services)) .nil
        else .nil
      let shipFields : JsFields :=
        if jsTruthy p.shipmentPoint then
          fieldsApp svcFields
            (.cons "shipment_point" (.vstr (jsToStringVal p.shipmentPoint)) .nil)
        else svcFields
      let delFields : JsFields :=
        if jsTruthy p.deliveryPoint then
          fieldsApp shipFields
            (.cons "delivery_point" (.vstr (jsToStringVal p.deliveryPoint)) .nil)
        else shipFields
      .ok (cleanVal (.vobj (.cons "tariff_code" (numOrNan p.tariffCode)
        (.cons "date" (.vstr (fmtDate nowIso p.date))
        (.cons "currency" (.vnum (p.currency.getD 1))
        (.cons "lang" (.vstr "rus")
        (.cons "from_location" (locWithAddress p.fromLocation)
        (.cons "to_location" (locWithAddress p.toLocation)
        (.cons "packages" (.varr pkgs) delFields)))))))))

/-- `CDEKApiClient.calculateDeliveryByTariff`: build the body (failing before
any network call on invalid packages), then POST it to `/calculator/tariff`. -/
def calculateDeliveryByTariff (env : Env) (s : AuthState) (p : TariffParams) : OpResult :=
  match calcByTariffBody env.nowIso p with
  | .error e => (.error e, s, [])
  | .ok body => doRequest env s ⟨"/calculator/tariff", "POST", some body, []⟩

/-- `CDEKApiClient.getOffices` (`api.js` lines 95-105): GET
`/deliverypoints` with `city_code`, the fixed language, and the stringified
filters, in insertion order. -/
def getOffices (env : Env) (s : AuthState) (cityCode : Int)
    (filters : List (String × String)) : OpResult :=
  doRequest env s
    ⟨"/deliverypoints?" ++
        urlParams ([("city_code", toString cityCode), ("lang", "rus")] ++ filters),
      "GET", none, []⟩

/-- The per-tariff projection of the `getTariffs` fallback (`api.js` lines
357-362). -/
def tariffsProj (t : JsVal) : JsVal :=
  .vobj (.cons "tariff_code" (getField t "tariff_code")
    (.cons "tariff_name" (getField t "tariff_name")
    (.cons "tariff_description" (jsOrVal (getField t "tariff_description") (.vstr ""))
    (.cons "delivery_mode" (getField t "delivery_mode") .nil))))

/-- The parameters of the `getTariffs` fallback quote: the default cities
(44 and 270) overridable through `options`, and the fixed 1000 g /
10x10x10 cm package (`api.js` lines 339-351). -/
def fallbackQuoteParams (fromCityCodeOpt toCityCodeOpt : Option Int) : QuoteParams :=
  ⟨⟨.int (jsOrI fromCityCodeOpt 44), none⟩, ⟨.int (jsOrI toCityCodeOpt 270), none⟩,
    [⟨.fin 1000, .fin 10, .fin 10, .fin 10⟩]⟩

/-- `CDEKApiClient.getTariffs` (`api.js` lines 323-368): try the direct
tariffs endpoint; if the thrown error's message contains the substring
`"404"`, fall back to a `calculateDelivery` quote between the default cities
and return the projection of its `tariff_codes` array (no de-duplication);
any other error propagates unchanged. -/
def getTariffs (env : Env) (s : AuthState) (lang : String)
    (fromCityCodeOpt toCityCodeOpt : Option Int) : OpResult :=
  match doRequest env s ⟨"/calculator/tariffs", "GET", none, [("X-User-Lang", lang)]⟩ with
  | (.ok v, s1, log1) => (.ok v, s1, log1)
  | (.error e, s1, log1) =>
      if strIncludes e.message "404" then
        match calculateDelivery env s1 (fallbackQuoteParams fromCityCodeOpt toCityCodeOpt) with
        | (.error e2, s2, log2) => (.error e2, s2, log1 ++ log2)
        | (.ok result, s2, log2) =>
            match jsOrVal (getField result "tariff_codes") (.varr .nil) with
            | .varr ts => (.ok (.varr (arrMap tariffsProj ts)), s2, log1 ++ log2)
            | _ => (.error (.typeError "tariffs.map is not a function"), s2, log1 ++ log2)
      else (.error e, s1, log1)

/-- The recipient of an order: `name` plus whatever was passed as `phones`. -/
structure Recipient where
  name : Option String
  phones : JsVal

/-- A destination location for an order (`toLocation`). -/
structure OrderLocation where
  code : CodeVal
  address : Option String

/-- A package of an order.  `number` is kept verbatim (the source copies it
without coercion); dimensions are `Number(...)` outcomes with no NaN check;
`items` defaults to the empty array. -/
structure OrderPackage where
  number : JsVal
  weight : JsNum
  length : JsNum
  width : JsNum
  height : JsNum
  items : Option JsArr

/-- Parameters of `createOrder`.  `type` defaults to 1 when absent. -/
structure OrderParams where
  type : Option Int
  number : Option String
  tariffCode : Option Int
  shipmentPoint : JsVal
  deliveryPoint : JsVal
  toLocation : Option OrderLocation
  recipient : Option Recipient
  packages : Option (List OrderPackage)

/-- The `recipient.phones` normalization of `api.js` lines 414-418: an array
is mapped to `(\x7bnumber: String(phone.number || phone)\x7d)` entries,
anything else is wrapped as a single such entry. -/
def phonesVal (phones : JsVal) : JsVal :=
  match phones with
  | .varr ps => .varr (arrMap (fun ph =>
      .vobj (.cons "number"
        (.vstr (jsToStringVal (jsOrVal (getField ph "number") ph))) .nil)) ps)
  | other => .varr (.cons (.vobj (.cons "number"
      (.vstr (jsToStringVal other)) .nil)) .nil)

/-- The `packages.map((pkg, index) => ...)` of `api.js` lines 420-427: a
synthesized `PACK-<1-based index>` number when none is supplied, dimensions
converted with `Number` and NOT validated (NaN flows into the body), and the
`items` default. -/
def orderPkgArr (idx : Nat) : List OrderPackage → JsArr
  | [] => .nil
  | pkg :: rest =>
      .cons (.vobj (.cons "number"
          (jsOrVal pkg.number (.vstr ("PACK-" ++ toString (idx + 1))))
        (.cons "weight" (numVal pkg.weight)
        (.cons "length" (numVal pkg.length)
        (.cons "width" (numVal pkg.width)
        (.cons "height" (numVal pkg.height)
        (.cons "items" (.varr (pkg.items.getD .nil)) .nil)))))))
        (orderPkgArr (idx + 1) rest)

/-- The body built by `CDEKApiClient.createOrder` (`api.js` lines 383-449):
presence validations, recipient/package normalization, optional
`shipment_point`, and the destination rule — `delivery_point` wins when
truthy, else `to_location`, else a validation error.  No
`JSON.stringify`-round-trip is applied to this body in the source. -/
def createOrderBody (p : OrderParams) : Except CdekError JsVal :=
  match p.number with
  | none => .error (.validationError "Номер заказа обязателен")
  | some num =>
  if num == "" then .error (.validationError "Номер заказа обязателен")
  else match p.tariffCode with
  | none => .error (.validationError "Код тарифа обязателен")
  | some tc =>
  if tc == 0 then .error (.validationError "Код тарифа обязателен")
  else match p.recipient with
  | none => .error (.validationError "Получатель обязателен")
  | some r =>
  if strFalsy r.name then .error (.validationError "Получатель обязателен")
  else match p.packages with
  | none => .error (.validationError "Посылки обязательны")
  | some pkgs =>
  if pkgs.length == 0 then .error (.validationError "Посылки обязательны")
  else
    let base : JsFields :=
      .cons "type" (.vnum (p.type.getD 1))
      (.cons "number" (.vstr num)
      (.cons "tariff_code" (.vnum tc)
      (.cons "recipient" (.vobj (.cons "name" (.vstr (r.name.getD ""))
        (.cons "phones" (phonesVal r.phones) .nil)))
      (.cons "packages" (.varr (orderPkgArr 0 pkgs)) .nil))))
    let withShip : JsFields :=
      if jsTruthy p.shipmentPoint then
        fieldsApp base (.cons "shipment_point"
          (.vstr (jsToStringVal p.shipmentPoint)) .nil)
      else base
    if jsTruthy p.deliveryPoint then
      .ok (.vobj (fieldsApp withShip (.cons "delivery_point"
        (.vstr (jsToStringVal p.deliveryPoint)) .nil)))
    else
      match p.toLocation with
      | some loc =>
          let tl : JsFields :=
            match loc.address with
            | some a =>
                if a == "" then .cons "code" (.vstr (jsToStr loc.code)) .nil
                else .cons "code" (.vstr (jsToStr loc.code))
                  (.cons "address" (.vstr a) .nil)
            | none => .cons "code" (.vstr (jsToStr loc.code)) .nil
          .ok (.vobj (fieldsApp withShip (.cons "to_location" (.vobj tl) .nil)))
      | none => .error (.validationError "Необходимо указать либо deliveryPoint, либо toLocation")

/-- `CDEKApiClient.createOrder`: build the body (failing before any network
call on missing fields or a missing destination), then POST to `/orders`. -/
def createOrder (env : Env) (s : AuthState) (p : OrderParams) : OpResult :=
  match createOrderBody p with
  | .error e => (.error e, s, [])
  | .ok body => doRequest env s ⟨"/orders", "POST", some body, []⟩

/-- The carrier paths of the network calls in a log. -/
def carrierPaths : List NetCall → List String
  | [] => []
  | .tokenExchange :: rest => carrierPaths rest
  | .carrier r :: rest => r.path :: carrierPaths rest

/-- The route layer's `formatAddress` helper (`routes/delivery.js` lines
106-114): blank input gives `undefined`; otherwise the trimmed address is
prefixed with the locality marker when it neither already starts with
`"г. "` nor contains a comma, and returned as trimmed otherwise. -/
def formatAddress (addr : Option String) : Option String :=
  match addr with
  | none => none
  | some a =>
      if jsTrim a == "" then none
      else
        if !leadsWith (jsTrim a) "г. " && !strIncludes (jsTrim a) "," then
          some ("г. " ++ jsTrim a)
        else some (jsTrim a)

/-- The selection step of the pickup-point discovery (`routes/delivery.js`
lines 357-367 / 383-393): on a non-empty array response, the code of the
first point with `is_ltl === true`, else the code of the first point; on an
empty or non-array response, no selection. -/
def pickPointFrom (resp : JsVal) : Option JsVal :=
  match resp with
  | .varr (.cons o0 rest) =>
      match arrFilter (fun o => isTrueVal (getField o "is_ltl")) (.cons o0 rest) with
      | .cons oL _ => some (getField oL "code")
      | .nil => some (getField o0 "code")
  | _ => none

/-- The tariff-751 pickup-point discovery block of the
`POST /calculate-by-tariff` route handler (`routes/delivery.js` lines
342-398).  For tariff 751, when the shipment point is falsy it queries
standard (`type=PVZ`) pickup points in the origin city and selects a point
(preferring LTL-flagged ones); likewise for the delivery point when both it
and `toAddress` are falsy, in the destination city.  A failed or unusable
query is swallowed: the point is simply left as it was.  The function is
total — no discovery failure ever propagates. -/
def discoverPoints (env : Env) (s : AuthState)
    (tariffCode fromCityCode toCityCode : Int)
    (shipmentPoint deliveryPoint toAddress : JsVal) :
    (JsVal × JsVal) × AuthState × List NetCall :=
  if tariffCode == 751 then
    let step1 : JsVal × AuthState × List NetCall :=
      if jsTruthy shipmentPoint then (shipmentPoint, s, [])
      else
        match getOffices env s fromCityCode [("type", "PVZ"), ("size", "10")] with
        | (.error _, s', log) => (shipmentPoint, s', log)
        | (.ok resp, s', log) =>
            match pickPointFrom resp with
            | some c => (c, s', log)
            | none => (shipmentPoint, s', log)
    match step1 with
    | (fsp, s1, log1) =>
      let step2 : JsVal × AuthState × List NetCall :=
        if jsTruthy deliveryPoint || jsTruthy toAddress then (deliveryPoint, s1, [])
        else
          match getOffices env s1 toCityCode [("type", "PVZ"), ("size", "10")] with
          | (.error _, s', log) => (deliveryPoint, s', log)
          | (.ok resp, s', log) =>
              match pickPointFrom resp with
              | some c => (c, s', log)
              | none => (deliveryPoint, s', log)
      match step2 with
      | (fdp, s2, log2) => ((fsp, fdp), s2, log1 ++ log2)
  else ((shipmentPoint, deliveryPoint), s, [])

/-! ## Helper lemmas -/

theorem hasLead_append (pat l m : List Char) (h : hasLead pat l = true) :
    hasLead pat (l ++ m) = true := by
  induction pat generalizing l with
  | nil => simp [hasLead]
  | cons p ps ih =>
      cases l with
      | nil => simp [hasLead] at h
      | cons c cs =>
          simp only [hasLead, Bool.and_eq_true] at h ⊢
          exact ⟨h.1, ih cs h.2⟩

theorem listIncludes_append_left (pat l m : List Char)
    (h : listIncludes pat l = true) : listIncludes pat (l ++ m) = true := by
  induction l with
  | nil =>
      simp only [listIncludes] at h
      cases pat with
      | nil =>
          cases m with
          | nil => simp [listIncludes, hasLead]
          | cons c cs => simp [listIncludes, hasLead]
      | cons p ps => simp [hasLead] at h
  | cons c cs ih =>
      simp only [listIncludes, Bool.or_eq_true] at h ⊢
      rcases h with h | h
      · exact Or.inl (hasLead_append _ _ _ h)
      · exact Or.inr (ih h)

theorem str_data_append (a b : String) : (a ++ b).data = a.data ++ b.data := rfl

theorem strIncludes_append_left (a b pat : String) (h : strIncludes a pat = true) :
    strIncludes (a ++ b) pat = true := by
  unfold strIncludes at h ⊢
  rw [str_data_append]
  exact listIncludes_append_left _ _ _ h

theorem fieldsLookup_app : ∀ (a : JsFields) (b : JsFields) (k : String),
    fieldsLookup (fieldsApp a b) k =
      match fieldsLookup a k with
      | some v => some v
      | none => fieldsLookup b k
  | .nil, b, k => by simp [fieldsApp, fieldsLookup]
  | .cons k' v t, b, k => by
      by_cases h : k' == k
      · simp [fieldsApp, fieldsLookup, h]
      · simp only [fieldsApp, fieldsLookup, h, if_false, Bool.false_eq_true]
        exact fieldsLookup_app t b k

theorem cleanFields_cons_ne (k : String) (v : JsVal) (t : JsFields)
    (h : v ≠ .vundef) :
    cleanFields (.cons k v t) = .cons k (cleanVal v) (cleanFields t) := by
  cases v <;> first | rfl | exact absurd rfl h

theorem numOrNan_ne_undef (o : Option Int) : numOrNan o ≠ .vundef := by
  cases o <;> simp [numOrNan]

theorem locWithAddress_ne_undef (loc : RawLocation) :
    locWithAddress loc ≠ .vundef := by
  obtain ⟨c, ad⟩ := loc
  cases ad with
  | none => simp [locWithAddress]
  | some a =>
      simp only [locWithAddress]
      split <;> simp

theorem validatePackage_invalid (pkg : RawPackage) (h : pkgNaN pkg = true) :
    validatePackage pkg = .error (.validationError nanMsg) := by
  simp [validatePackage, h]

theorem validatePackage_shape (pkg : RawPackage) :
    validatePackage pkg = .error (.validationError nanMsg) ∨
      ∃ v, validatePackage pkg = .ok v := by
  by_cases h : pkgNaN pkg <;> simp [validatePackage, h]

theorem validatePackages_invalid (l : List RawPackage)
    (h : l.any pkgNaN = true) :
    validatePackages l = .error (.validationError nanMsg) := by
  induction l with
  | nil => simp at h
  | cons pkg rest ih =>
      simp only [List.any_cons, Bool.or_eq_true] at h
      rcases h with h | h
      · simp [validatePackages, validatePackage_invalid pkg h]
      · rcases validatePackage_shape pkg with hp | ⟨v, hp⟩
        · simp [validatePackages, hp]
        · simp [validatePackages, hp, ih h]

theorem validatePackages_valid (l : List RawPackage)
    (h : l.any pkgNaN = false) :
    ∃ arr, validatePackages l = .ok arr ∧ arrLength arr = l.length := by
  induction l with
  | nil => exact ⟨.nil, rfl, rfl⟩
  | cons pkg rest ih =>
      simp only [List.any_cons, Bool.or_eq_false_iff] at h
      obtain ⟨arr, harr, hlen⟩ := ih h.2
      have hp : validatePackage pkg = .ok (.vobj (.cons "weight" (numVal pkg.weight)
          (.cons "length" (numVal pkg.length)
          (.cons "width" (numVal pkg.width)
          (.cons "height" (numVal pkg.height) .nil))))) := by
        simp [validatePackage, h.1]
      refine ⟨.cons (.vobj (.cons "weight" (numVal pkg.weight)
          (.cons "length" (numVal pkg.length)
          (.cons "width" (numVal pkg.width)
          (.cons "height" (numVal pkg.height) .nil))))) arr, ?_, ?_⟩
      · simp [validatePackages, hp, harr]
      · simp [arrLength, hlen]

/-! ## C1 -/

/-- C1: for every credential-cache state holding a cached token and a stored
expiry instant, a `getToken()` call made while `Date.now()` is still below
the stored instant (which is the real expiry minus the 60-second margin)
returns the cached token with no network call; and starting from a cache
miss, a successful exchange followed by a second call made before the newly
stored expiry performs exactly one token-exchange network call between the
two calls (the first call's flag is `true`, the second's is `false`),
whatever the token endpoint would answer the second time. -/
theorem cached_token_single_exchange :
    (∀ env s, tokenCacheHit env.now s = true →
        getToken env s = (.ok (s.token.getD ""), s, false)) ∧
    (∀ now1 now2 iso1 iso2 tr1 tr2 resp2 s tok expIn,
        tokenCacheHit now1 s = false → tok ≠ "" →
        now1 + jsOrI expIn 3600 * 1000 - 60000 ≠ 0 →
        now2 < now1 + jsOrI expIn 3600 * 1000 - 60000 →
        getToken ⟨now1, iso1, .success tok expIn, tr1⟩ s =
          (.ok tok, ⟨some tok, some (now1 + jsOrI expIn 3600 * 1000 - 60000)⟩, true) ∧
        getToken ⟨now2, iso2, resp2, tr2⟩
            ⟨some tok, some (now1 + jsOrI expIn 3600 * 1000 - 60000)⟩ =
          (.ok tok, ⟨some tok, some (now1 + jsOrI expIn 3600 * 1000 - 60000)⟩, false)) := by
  constructor
  · intro env s h
    simp [getToken, h]
  · intro now1 now2 iso1 iso2 tr1 tr2 resp2 s tok expIn hmiss htok hnz hlt
    constructor
    · simp [getToken, hmiss]
    · have hhit : tokenCacheHit now2
          ⟨some tok, some (now1 + jsOrI expIn 3600 * 1000 - 60000)⟩ = true := by
        simp [tokenCacheHit, htok, hnz, hlt]
      simp [getToken, hhit]

/-- Witness for C1: a concrete cache hit, and a concrete miss-then-hit pair
issuing exactly one exchange. -/
theorem cached_token_single_exchange_witness :
    getToken ⟨50, "", .success "fresh" none, fun _ => ⟨200, .vnull, .vnull⟩⟩
        ⟨some "cached", some 100⟩ =
      (.ok "cached", ⟨some "cached", some 100⟩, false) ∧
    (getToken ⟨100, "", .success "t1" none, fun _ => ⟨200, .vnull, .vnull⟩⟩ ⟨none, none⟩ =
        (.ok "t1", ⟨some "t1", some 3540100⟩, true) ∧
      getToken ⟨200, "", .httpError 500 "down", fun _ => ⟨200, .vnull, .vnull⟩⟩
          ⟨some "t1", some 3540100⟩ =
        (.ok "t1", ⟨some "t1", some 3540100⟩, false)) := by
  refine ⟨cached_token_single_exchange.1 _ _ (by decide), ?_⟩
  exact cached_token_single_exchange.2 100 200 "" "" _ _ _ ⟨none, none⟩ "t1" none
    (by decide) (by decide) (by decide) (by decide)

/-! ## C2 -/

/-- C2: when the token-exchange response has a non-success status,
`getToken` fails with the authentication error carrying that status and the
response body, and the cache is left exactly as it was (nothing cached). -/
theorem auth_failure_preserves_cache :
    ∀ now iso tr s st body, tokenCacheHit now s = false →
      getToken ⟨now, iso, .httpError st body, tr⟩ s =
        (.error (.authError st body), s, true) := by
  intro now iso tr s st body h
  simp [getToken, h]

/-- Witness for C2 at a concrete expired cache and a concrete 401. -/
theorem auth_failure_preserves_cache_witness :
    getToken ⟨500, "", .httpError 401 "bad credentials",
        fun _ => ⟨200, .vnull, .vnull⟩⟩ ⟨some "old", some 300⟩ =
      (.error (.authError 401 "bad credentials"), ⟨some "old", some 300⟩, true) :=
  auth_failure_preserves_cache 500 "" _ ⟨some "old", some 300⟩ 401 "bad credentials"
    (by decide)

/-! ## C9 -/

/-- Counterexample for C9 as stated: `"г. Москва"` contains no comma, yet
`formatAddress` does not prefix it with the locality marker — it is returned
unchanged, because it already starts with `"г. "`. -/
theorem formatAddress_marker_cex :
    strIncludes (jsTrim "г. Москва") "," = false ∧
    formatAddress (some "г. Москва") ≠ some ("г. " ++ jsTrim "г. Москва") ∧
    formatAddress (some "г. Москва") = some "г. Москва" :=
  ⟨by decide, by decide, by decide⟩

/-- C9 (amended): for every address string with non-blank trim, the trimmed
form is prefixed with the locality marker exactly when it contains no comma
AND does not already start with the marker; otherwise the trimmed form is
returned as is. -/
theorem formatAddress_behavior :
    ∀ a : String, jsTrim a ≠ "" →
      (leadsWith (jsTrim a) "г. " = false → strIncludes (jsTrim a) "," = false →
        formatAddress (some a) = some ("г. " ++ jsTrim a)) ∧
      ((leadsWith (jsTrim a) "г. " = true ∨ strIncludes (jsTrim a) "," = true) →
        formatAddress (some a) = some (jsTrim a)) := by
  intro a h
  have hb : (jsTrim a == "") = false := by
    simp [h]
  constructor
  · intro h1 h2
    simp [formatAddress, hb, h1, h2]
  · intro h12
    rcases h12 with h1 | h2
    · simp [formatAddress, hb, h1]
    · simp [formatAddress, hb, h2]

/-- Witness for C9: the spec's two concrete examples. -/
theorem formatAddress_behavior_witness :
    formatAddress (some "Москва") = some ("г. " ++ jsTrim "Москва") ∧
    formatAddress (some "г. Москва, ул. Ленина") =
      some (jsTrim "г. Москва, ул. Ленина") :=
  ⟨(formatAddress_behavior "Москва" (by decide)).1 (by decide) (by decide),
   (formatAddress_behavior "г. Москва, ул. Ленина" (by decide)).2
     (Or.inr (by decide))⟩

/-! ## C10 -/

/-- C10: an empty package list makes `calculateDelivery` fail with the
non-empty-array validation error before any network call (the returned call
log is empty, so neither a token exchange nor a carrier request happened). -/
theorem empty_packages_validation :
    ∀ env s fl tl, calculateDelivery env s ⟨fl, tl, []⟩ =
      (.error (.validationError "packages должен быть непустым массивом"), s, []) := by
  intro env s fl tl
  rfl

theorem carrierPaths_doRequest (env : Env) (s : AuthState) (r : Req)
    (hhit : tokenCacheHit env.now s = true) :
    carrierPaths (doRequest env s r).2.2 = [r.path] := by
  simp only [doRequest, getToken, hhit, if_true]
  split <;> simp [carrierPaths]

/-! ## C3 -/

/-- An order package some of whose dimensions convert to NaN. -/
def orderPkgNaN (pkg : OrderPackage) : Bool :=
  jsIsNaN pkg.weight || jsIsNaN pkg.length || jsIsNaN pkg.width ||
    jsIsNaN pkg.height

/-- A concrete, otherwise fully valid order whose single package has a
non-numeric weight (`Number(...)` = NaN). -/
def c3Params : OrderParams :=
  ⟨some 1, some "ORD-1", some 751, .vundef, .vstr "MSK123",
    some ⟨.int 270, some "г. Новосибирск"⟩,
    some ⟨some "Иван Иванов", .varr (.cons (.vstr "+79991234567") .nil)⟩,
    some [⟨.vundef, .nan, .fin 10, .fin 10, .fin 10, none⟩]⟩

/-- A world whose auth cache is warm and whose carrier accepts everything. -/
def c3Env : Env := ⟨0, "2024-01-01T00:00:00+0000", .success "tok" none,
  fun _ => ⟨200, .vnull, .vobj .nil⟩⟩

/-- Counterexample for C3 as stated, on two fronts.  (a) An `Infinity`
weight does not parse as a finite number, yet `isNaN(Infinity)` is false,
so it passes the quotes' guard: the all-tariffs quote issues its carrier
request — with the weight turned into `null` by the `JSON.stringify` round
trip — and succeeds, and the single-tariff quote likewise issues its
request; no validation error is raised.  (b) Order creation performs no
numeric validation at all: a NaN weight still issues `/orders` and the call
succeeds. -/
theorem nonfinite_dimension_validation_cex :
    jsIsNaN .posInf = false ∧
    calculateDelivery c3Env ⟨some "tok", some 10⟩
        ⟨⟨.int 44, none⟩, ⟨.int 270, none⟩,
          [⟨.posInf, .fin 10, .fin 10, .fin 10⟩]⟩ =
      (.ok (.vobj .nil), ⟨some "tok", some 10⟩,
        [.carrier ⟨"/calculator/tarifflist", "POST",
          some (.vobj (.cons "from_location"
              (.vobj (.cons "code" (.vstr "44") .nil))
            (.cons "to_location" (.vobj (.cons "code" (.vstr "270") .nil))
            (.cons "packages" (.varr (.cons (.vobj (.cons "weight" .vnull
              (.cons "length" (.vnum 10) (.cons "width" (.vnum 10)
              (.cons "height" (.vnum 10) .nil))))) .nil)) .nil)))), []⟩]) ∧
    carrierPaths (calculateDeliveryByTariff c3Env ⟨some "tok", some 10⟩
        ⟨some 136, ⟨.int 44, none⟩, ⟨.int 270, none⟩,
          [⟨.posInf, .fin 10, .fin 10, .fin 10⟩], [],
          some "2024-01-02T03:04:05+0700", none, .vundef, .vundef⟩).2.2 =
      ["/calculator/tariff"] ∧
    carrierPaths (createOrder c3Env ⟨some "tok", some 10⟩ c3Params).2.2 =
      ["/orders"] ∧
    (createOrder c3Env ⟨some "tok", some 10⟩ c3Params).1 = .ok (.vobj .nil) := by
  refine ⟨rfl, rfl, rfl, rfl, rfl⟩

/-- C3 (amended): the two quote operations validate package dimensions with
`isNaN` alone — they fail with the validation error before any network call
exactly when some dimension's `Number(...)` conversion is NaN, and
otherwise issue their carrier request even when a conversion is a
non-finite infinity; order creation performs no numeric validation at all —
with a warm token cache, an otherwise valid order carrying a NaN dimension
still issues the carrier request to `/orders`. -/
theorem package_validation_isnan_only :
    (∀ env s fl tl pkgs, pkgs.any pkgNaN = true →
        calculateDelivery env s ⟨fl, tl, pkgs⟩ =
          (.error (.validationError nanMsg), s, [])) ∧
    (∀ env s p, p.packages.any pkgNaN = true →
        calculateDeliveryByTariff env s p =
          (.error (.validationError nanMsg), s, [])) ∧
    (∀ env s fl tl pkgs, tokenCacheHit env.now s = true →
        pkgs.any pkgNaN = false → pkgs ≠ [] →
        carrierPaths (calculateDelivery env s ⟨fl, tl, pkgs⟩).2.2 =
          ["/calculator/tarifflist"]) ∧
    (∀ env s p, tokenCacheHit env.now s = true →
        p.packages.any pkgNaN = false →
        carrierPaths (calculateDeliveryByTariff env s p).2.2 =
          ["/calculator/tariff"]) ∧
    (∀ env s p b, tokenCacheHit env.now s = true →
        (p.packages.getD []).any orderPkgNaN = true →
        createOrderBody p = .ok b →
        carrierPaths (createOrder env s p).2.2 = ["/orders"]) := by
  refine ⟨?_, ?_, ?_, ?_, ?_⟩
  · intro env s fl tl pkgs h
    have hv := validatePackages_invalid pkgs h
    simp [calculateDelivery, calculateDeliveryBody, hv]
  · intro env s p h
    have hv := validatePackages_invalid p.packages h
    simp [calculateDeliveryByTariff, calcByTariffBody, hv]
  · intro env s fl tl pkgs hhit hnonan hne
    obtain ⟨arr, harr, hlen⟩ := validatePackages_valid pkgs hnonan
    have hlen0 : (arrLength arr == 0) = false := by
      rw [hlen]
      simpa using hne
    simp only [calculateDelivery, calculateDeliveryBody, harr, hlen0,
      if_false, Bool.false_eq_true]
    exact carrierPaths_doRequest env s _ hhit
  · intro env s p hhit hnonan
    obtain ⟨arr, harr, hlen⟩ := validatePackages_valid p.packages hnonan
    simp only [calculateDeliveryByTariff, calcByTariffBody, harr]
    exact carrierPaths_doRequest env s _ hhit
  · intro env s p b hhit hinv hbody
    simp only [createOrder, hbody]
    exact carrierPaths_doRequest env s _ hhit

/-- Witness for C3: a NaN-weight quote fails with an empty call log, an
Infinity-weight quote goes through to `/calculator/tarifflist`, and
`createOrder` on a NaN-weight package issues `/orders`. -/
theorem package_validation_isnan_only_witness :
    calculateDelivery c3Env ⟨some "tok", some 10⟩
        ⟨⟨.int 44, none⟩, ⟨.int 270, none⟩,
          [⟨.nan, .fin 10, .fin 10, .fin 10⟩]⟩ =
      (.error (.validationError nanMsg), ⟨some "tok", some 10⟩, []) ∧
    carrierPaths (calculateDelivery c3Env ⟨some "tok", some 10⟩
        ⟨⟨.int 44, none⟩, ⟨.int 270, none⟩,
          [⟨.posInf, .fin 10, .fin 10, .fin 10⟩]⟩).2.2 =
      ["/calculator/tarifflist"] ∧
    carrierPaths (createOrder c3Env ⟨some "tok", some 10⟩ c3Params).2.2 =
      ["/orders"] := by
  refine ⟨?_, ?_, ?_⟩
  · exact package_validation_isnan_only.1 c3Env ⟨some "tok", some 10⟩ _ _
      [⟨.nan, .fin 10, .fin 10, .fin 10⟩] (by decide)
  · exact package_validation_isnan_only.2.2.1 c3Env ⟨some "tok", some 10⟩ _ _
      [⟨.posInf, .fin 10, .fin 10, .fin 10⟩] (by decide) (by decide) (by simp)
  · exact package_validation_isnan_only.2.2.2.2 c3Env ⟨some "tok", some 10⟩
      c3Params _ (by decide) (by decide) rfl

/-! ## C4 / C5 -/

theorem lookup_cleanFields : ∀ (fs : JsFields) (k : String) (v : JsVal),
    fieldsLookup fs k = some v → v ≠ .vundef →
    fieldsLookup (cleanFields fs) k = some (cleanVal v)
  | .nil, k, v => by simp [fieldsLookup]
  | .cons k' v' t, k, v => by
      intro h hne
      by_cases hk : k' == k
      · simp only [fieldsLookup, hk, if_true, Option.some.injEq] at h
        subst h
        rw [cleanFields_cons_ne _ _ _ hne]
        simp [fieldsLookup, hk]
      · simp only [fieldsLookup, hk, if_false, Bool.false_eq_true] at h
        by_cases hv' : v' = .vundef
        · subst hv'
          have : cleanFields (.cons k' .vundef t) = cleanFields t := rfl
          rw [this]
          exact lookup_cleanFields t k v h hne
        · rw [cleanFields_cons_ne k' v' t hv']
          simp only [fieldsLookup, hk, if_false, Bool.false_eq_true]
          exact lookup_cleanFields t k v h hne

theorem getField_clean_loc (loc : RawLocation) :
    getField (cleanVal (locWithAddress loc)) "code" = .vstr (jsToStr loc.code) := by
  obtain ⟨c, ad⟩ := loc
  cases ad with
  | none => simp [locWithAddress, cleanVal, cleanFields, getField, objGet, fieldsLookup]
  | some a =>
      simp only [locWithAddress]
      split <;> simp [cleanVal, cleanFields, getField, objGet, fieldsLookup]

/-- The raw (pre-round-trip) field list of the single-tariff body, split off
so the lookup lemmas can traverse it. -/
theorem calcByTariffBody_ok (nowIso : String) (p : TariffParams) (b : JsVal)
    (h : calcByTariffBody nowIso p = .ok b) :
    ∃ pkgs tail, validatePackages p.packages = .ok pkgs ∧
      b = cleanVal (.vobj (.cons "tariff_code" (numOrNan p.tariffCode)
        (.cons "date" (.vstr (fmtDate nowIso p.date))
        (.cons "currency" (.vnum (p.currency.getD 1))
        (.cons "lang" (.vstr "rus")
        (.cons "from_location" (locWithAddress p.fromLocation)
        (.cons "to_location" (locWithAddress p.toLocation)
        (.cons "packages" (.varr pkgs) tail)))))))) := by
  unfold calcByTariffBody at h
  cases hv : validatePackages p.packages with
  | error e => rw [hv] at h; simp at h
  | ok pkgs =>
      rw [hv] at h
      simp only [Except.ok.injEq] at h
      exact ⟨pkgs, _, rfl, h.symm⟩

/-- C4: in all three operations the serialized body carries the location
codes as strings — `from_location.code` and `to_location.code` in the two
quote bodies, and `to_location.code` in an order body built from a
`toLocation` destination — each equal to `String(code)` of the supplied
code, including integer-supplied codes. -/
theorem location_codes_sent_as_strings :
    (∀ p b, calculateDeliveryBody p = .ok b →
        getField (getField b "from_location") "code" =
          .vstr (jsToStr p.fromLocation.code) ∧
        getField (getField b "to_location") "code" =
          .vstr (jsToStr p.toLocation.code)) ∧
    (∀ nowIso p b, calcByTariffBody nowIso p = .ok b →
        getField (getField b "from_location") "code" =
          .vstr (jsToStr p.fromLocation.code) ∧
        getField (getField b "to_location") "code" =
          .vstr (jsToStr p.toLocation.code)) ∧
    (∀ p b loc, createOrderBody p = .ok b → p.toLocation = some loc →
        jsTruthy p.deliveryPoint = false →
        getField (getField b "to_location") "code" = .vstr (jsToStr loc.code)) := by
  refine ⟨?_, ?_, ?_⟩
  · intro p b h
    unfold calculateDeliveryBody at h
    cases hv : validatePackages p.packages with
    | error e => rw [hv] at h; simp at h
    | ok pkgs =>
        rw [hv] at h
        by_cases hl : arrLength pkgs == 0
        · simp [hl] at h
        · simp only [hl, if_false, Bool.false_eq_true, Except.ok.injEq] at h
          subst h
          constructor <;>
            simp [cleanVal, cleanFields, getField, objGet, fieldsLookup]
  · intro nowIso p b h
    obtain ⟨pkgs, tail, hv, rfl⟩ := calcByTariffBody_ok nowIso p b h
    have hfrom : fieldsLookup (.cons "tariff_code" (numOrNan p.tariffCode)
        (.cons "date" (.vstr (fmtDate nowIso p.date))
        (.cons "currency" (.vnum (p.currency.getD 1))
        (.cons "lang" (.vstr "rus")
        (.cons "from_location" (locWithAddress p.fromLocation)
        (.cons "to_location" (locWithAddress p.toLocation)
        (.cons "packages" (.varr pkgs) tail))))))) "from_location" =
          some (locWithAddress p.fromLocation) := by
      simp [fieldsLookup]
    have hto : fieldsLookup (.cons "tariff_code" (numOrNan p.tariffCode)
        (.cons "date" (.vstr (fmtDate nowIso p.date))
        (.cons "currency" (.vnum (p.currency.getD 1))
        (.cons "lang" (.vstr "rus")
        (.cons "from_location" (locWithAddress p.fromLocation)
        (.cons "to_location" (locWithAddress p.toLocation)
        (.cons "packages" (.varr pkgs) tail))))))) "to_location" =
          some (locWithAddress p.toLocation) := by
      simp [fieldsLookup]
    constructor
    · have := lookup_cleanFields _ _ _ hfrom (locWithAddress_ne_undef p.fromLocation)
      simp only [cleanVal, getField, objGet, this, Option.getD_some]
      exact getField_clean_loc p.fromLocation
    · have := lookup_cleanFields _ _ _ hto (locWithAddress_ne_undef p.toLocation)
      simp only [cleanVal, getField, objGet, this, Option.getD_some]
      exact getField_clean_loc p.toLocation
  · intro p b loc h htl hdp
    unfold createOrderBody at h
    cases hnum : p.number with
    | none => rw [hnum] at h; simp at h
    | some num =>
        rw [hnum] at h
        by_cases h1 : num == ""
        · simp [h1] at h
        · simp only [h1, if_false, Bool.false_eq_true] at h
          cases htc : p.tariffCode with
          | none => rw [htc] at h; simp at h
          | some tc =>
              rw [htc] at h
              by_cases h2 : tc == 0
              · simp [h2] at h
              · simp only [h2, if_false, Bool.false_eq_true] at h
                cases hr : p.recipient with
                | none => rw [hr] at h; simp at h
                | some r =>
                    rw [hr] at h
                    by_cases h3 : strFalsy r.name
                    · simp [h3] at h
                    · simp only [h3, if_false, Bool.false_eq_true] at h
                      cases hp : p.packages with
                      | none => rw [hp] at h; simp at h
                      | some pkgs =>
                          rw [hp] at h
                          by_cases h4 : pkgs.length == 0
                          · simp [h4] at h
                          · simp only [h4, if_false, Bool.false_eq_true, hdp,
                              htl] at h
                            simp only [Except.ok.injEq] at h
                            subst h
                            have hcode : ∀ tlf : JsFields,
                                fieldsLookup tlf "code" =
                                  some (.vstr (jsToStr loc.code)) →
                                ∀ ws : JsFields, fieldsLookup ws "to_location" = none →
                                getField (getField (.vobj (fieldsApp ws
                                    (.cons "to_location" (.vobj tlf) .nil)))
                                  "to_location") "code" = .vstr (jsToStr loc.code) := by
                              intro tlf htlf ws hws
                              simp [getField, objGet, fieldsLookup_app, hws,
                                fieldsLookup, htlf]
                            apply hcode
                            · cases had : loc.address with
                              | none => simp [fieldsLookup]
                              | some a =>
                                  by_cases h6 : a == "" <;> simp [h6, fieldsLookup]
                            · by_cases h5 : jsTruthy p.shipmentPoint <;>
                                simp [h5, fieldsLookup_app, fieldsLookup]

/-- Witness for C4: integer-supplied codes 44/270 come out as the strings
`"44"`/`"270"` in all three bodies. -/
theorem location_codes_sent_as_strings_witness :
    (getField (getField ((calculateDeliveryBody
        ⟨⟨.int 44, some "г. Москва"⟩, ⟨.int 270, none⟩,
          [⟨.fin 1000, .fin 10, .fin 10, .fin 10⟩]⟩).toOption.getD .vundef)
        "from_location") "code" = .vstr "44") ∧
    (getField (getField ((calcByTariffBody "2024-01-01T00:00:00+0000"
        ⟨some 751, ⟨.int 44, some "г. Москва"⟩, ⟨.int 270, some "г. Новосибирск"⟩,
          [⟨.fin 1000, .fin 10, .fin 10, .fin 10⟩], [], none, none,
          .vundef, .vundef⟩).toOption.getD .vundef)
        "to_location") "code" = .vstr "270") ∧
    (getField (getField ((createOrderBody
        ⟨some 1, some "ORD-2", some 139, .vundef, .vundef,
          some ⟨.int 270, some "г. Новосибирск"⟩,
          some ⟨some "Иван", .varr (.cons (.vstr "+79991234567") .nil)⟩,
          some [⟨.vstr "PACK-1", .fin 1000, .fin 10, .fin 10, .fin 10, none⟩]⟩
        ).toOption.getD .vundef) "to_location") "code" = .vstr "270") := by
  refine ⟨?_, ?_, ?_⟩
  · have := (location_codes_sent_as_strings.1
      ⟨⟨.int 44, some "г. Москва"⟩, ⟨.int 270, none⟩,
        [⟨.fin 1000, .fin 10, .fin 10, .fin 10⟩]⟩ _ rfl).1
    exact this
  · have := (location_codes_sent_as_strings.2.1 "2024-01-01T00:00:00+0000"
      ⟨some 751, ⟨.int 44, some "г. Москва"⟩, ⟨.int 270, some "г. Новосибирск"⟩,
        [⟨.fin 1000, .fin 10, .fin 10, .fin 10⟩], [], none, none,
        .vundef, .vundef⟩ _ rfl).2
    exact this
  · exact location_codes_sent_as_strings.2.2
      ⟨some 1, some "ORD-2", some 139, .vundef, .vundef,
        some ⟨.int 270, some "г. Новосибирск"⟩,
        some ⟨some "Иван", .varr (.cons (.vstr "+79991234567") .nil)⟩,
        some [⟨.vstr "PACK-1", .fin 1000, .fin 10, .fin 10, .fin 10, none⟩]⟩
      _ ⟨.int 270, some "г. Новосибирск"⟩ rfl rfl rfl

/-- C5: every successfully built all-tariffs quote body has exactly the three
top-level fields `from_location`, `to_location`, `packages`, and each
location object consists of the string-coerced code alone — any address on
the input locations is omitted. -/
theorem quote_body_minimal_fields :
    ∀ p b, calculateDeliveryBody p = .ok b →
      objKeys b = ["from_location", "to_location", "packages"] ∧
      objGet b "from_location" =
        some (.vobj (.cons "code" (.vstr (jsToStr p.fromLocation.code)) .nil)) ∧
      objGet b "to_location" =
        some (.vobj (.cons "code" (.vstr (jsToStr p.toLocation.code)) .nil)) := by
  intro p b h
  unfold calculateDeliveryBody at h
  cases hv : validatePackages p.packages with
  | error e => rw [hv] at h; simp at h
  | ok pkgs =>
      rw [hv] at h
      by_cases hl : arrLength pkgs == 0
      · simp [hl] at h
      · simp only [hl, if_false, Bool.false_eq_true, Except.ok.injEq] at h
        subst h
        refine ⟨?_, ?_, ?_⟩ <;>
          simp [cleanVal, cleanFields, objKeys, objGet, fieldsKeys, fieldsLookup]

/-- Witness for C5: a quote input whose both locations carry addresses still
yields the three-field body with code-only locations. -/
theorem quote_body_minimal_fields_witness :
    objKeys ((calculateDeliveryBody
        ⟨⟨.int 44, some "г. Москва, ул. Ленина"⟩, ⟨.int 270, some "г. Новосибирск"⟩,
          [⟨.fin 2000, .fin 10, .fin 20, .fin 30⟩]⟩).toOption.getD .vundef) =
      ["from_location", "to_location", "packages"] ∧
    objGet ((calculateDeliveryBody
        ⟨⟨.int 44, some "г. Москва, ул. Ленина"⟩, ⟨.int 270, some "г. Новосибирск"⟩,
          [⟨.fin 2000, .fin 10, .fin 20, .fin 30⟩]⟩).toOption.getD .vundef)
        "from_location" = some (.vobj (.cons "code" (.vstr "44") .nil)) := by
  have h := quote_body_minimal_fields
    ⟨⟨.int 44, some "г. Москва, ул. Ленина"⟩, ⟨.int 270, some "г. Новосибирск"⟩,
      [⟨.fin 2000, .fin 10, .fin 20, .fin 30⟩]⟩ _ rfl
  exact ⟨h.1, h.2.1⟩

/-! ## C7 -/

/-- C7: when `deliveryPoint` is supplied (truthy) — in particular when
`toLocation` is supplied as well — the order body carries `delivery_point`
(the string-coerced point) and no `to_location` field; and when neither
destination is supplied on an otherwise valid order, `createOrder` fails
with the destination validation error before any network call (empty call
log). -/
theorem createOrder_destination_rule :
    (∀ p b loc, jsTruthy p.deliveryPoint = true → p.toLocation = some loc →
        createOrderBody p = .ok b →
        objGet b "delivery_point" = some (.vstr (jsToStringVal p.deliveryPoint)) ∧
        objGet b "to_location" = none) ∧
    (∀ env s p num tc r pkgs,
        p.number = some num → num ≠ "" →
        p.tariffCode = some tc → tc ≠ 0 →
        p.recipient = some r → strFalsy r.name = false →
        p.packages = some pkgs → pkgs ≠ [] →
        jsTruthy p.deliveryPoint = false → p.toLocation = none →
        createOrder env s p =
          (.error (.validationError
            "Необходимо указать либо deliveryPoint, либо toLocation"), s, [])) := by
  constructor
  · intro p b loc hdp htl h
    unfold createOrderBody at h
    cases hnum : p.number with
    | none => rw [hnum] at h; simp at h
    | some num =>
        rw [hnum] at h
        by_cases h1 : num == ""
        · simp [h1] at h
        · simp only [h1, if_false, Bool.false_eq_true] at h
          cases htc : p.tariffCode with
          | none => rw [htc] at h; simp at h
          | some tc =>
              rw [htc] at h
              by_cases h2 : tc == 0
              · simp [h2] at h
              · simp only [h2, if_false, Bool.false_eq_true] at h
                cases hr : p.recipient with
                | none => rw [hr] at h; simp at h
                | some r =>
                    rw [hr] at h
                    by_cases h3 : strFalsy r.name
                    · simp [h3] at h
                    · simp only [h3, if_false, Bool.false_eq_true] at h
                      cases hp : p.packages with
                      | none => rw [hp] at h; simp at h
                      | some pkgs =>
                          rw [hp] at h
                          by_cases h4 : pkgs.length == 0
                          · simp [h4] at h
                          · simp only [h4, if_false, Bool.false_eq_true,
                              hdp, if_true, Except.ok.injEq] at h
                            subst h
                            constructor
                            · by_cases h5 : jsTruthy p.shipmentPoint <;>
                                simp [h5, objGet, fieldsLookup_app, fieldsLookup]
                            · by_cases h5 : jsTruthy p.shipmentPoint <;>
                                simp [h5, objGet, fieldsLookup_app, fieldsLookup]
  · intro env s p num tc r pkgs hnum hnum2 htc htc2 hr hr2 hp hp2 hdp htl
    have h1 : (num == "") = false := by simp [hnum2]
    have h2 : (tc == 0) = false := by simp [htc2]
    have h4 : (pkgs.length == 0) = false := by simp [hp2]
    simp [createOrder, createOrderBody, hnum, h1, htc, h2, hr, hr2, hp, h4,
      hdp, htl]

/-- The both-destinations order of the C7 witness. -/
def c7P : OrderParams :=
  ⟨some 1, some "ORD-3", some 751, .vundef, .vstr "MSK123",
    some ⟨.int 270, none⟩,
    some ⟨some "Иван", .vstr "+79991234567"⟩,
    some [⟨.vundef, .fin 1000, .fin 10, .fin 10, .fin 10, none⟩]⟩

/-- The body `createOrderBody` builds for `c7P`. -/
def c7Body : JsVal :=
  match createOrderBody c7P with
  | .error _ => .vundef
  | .ok b => b

/-- Witness for C7: the spec's concrete both-supplied scenario
(`deliveryPoint="MSK123"`, `toLocation.code=270`) and the concrete
neither-supplied scenario. -/
theorem createOrder_destination_rule_witness :
    (objGet c7Body "delivery_point" = some (.vstr "MSK123") ∧
      objGet c7Body "to_location" = none) ∧
    createOrder c3Env ⟨some "tok", some 10⟩
        ⟨some 1, some "ORD-4", some 751, .vundef, .vundef, none,
          some ⟨some "Иван", .vstr "+79991234567"⟩,
          some [⟨.vundef, .fin 1000, .fin 10, .fin 10, .fin 10, none⟩]⟩ =
      (.error (.validationError
        "Необходимо указать либо deliveryPoint, либо toLocation"),
        ⟨some "tok", some 10⟩, []) := by
  constructor
  · have hb : createOrderBody c7P = .ok c7Body := rfl
    have h := createOrder_destination_rule.1 c7P c7Body ⟨.int 270, none⟩ rfl rfl hb
    simpa [c7P, jsToStringVal] using h
  · exact createOrder_destination_rule.2 c3Env ⟨some "tok", some 10⟩
      _ "ORD-4" 751 ⟨some "Иван", .vstr "+79991234567"⟩
      [⟨.vundef, .fin 1000, .fin 10, .fin 10, .fin 10, none⟩]
      rfl (by decide) rfl (by decide) rfl rfl rfl (by simp) rfl rfl

/-! ## C8 -/

/-- The pickup-point discovery request for a city: standard points
(`type=PVZ`, `size=10`) in that city. -/
def offReq (c : Int) : Req :=
  ⟨"/deliverypoints?" ++
      urlParams ([("city_code", toString c), ("lang", "rus")] ++
        [("type", "PVZ"), ("size", "10")]),
    "GET", none, []⟩

theorem getOffices_eq (env : Env) (s : AuthState) (c : Int) :
    getOffices env s c [("type", "PVZ"), ("size", "10")] =
      doRequest env s (offReq c) := rfl

/-- C8: for a warehouse-to-warehouse (751) single-tariff quote, when no
shipment point is supplied the route handler queries standard (`type=PVZ`)
pickup points in the origin city and selects the code of the first point
with `is_ltl === true` when the LTL filter is non-empty, otherwise the code
of the first returned point; the same rule selects the delivery point (in
the destination city) when both the delivery point and `toAddress` are
absent; and a failed discovery query is swallowed — the handler returns
normally with the point left unset.  (`toAddress` truthy in the first three
parts keeps the delivery-side lookup out of play, as in the source.) -/
theorem pickup_point_discovery :
    (∀ env s fromCity toCity dp toAddr ed o0 rest oL tl,
        tokenCacheHit env.now s = true → jsTruthy toAddr = true →
        env.transport (offReq fromCity) = ⟨200, ed, .varr (.cons o0 rest)⟩ →
        arrFilter (fun o => isTrueVal (getField o "is_ltl")) (.cons o0 rest) =
          .cons oL tl →
        discoverPoints env s 751 fromCity toCity .vundef dp toAddr =
          ((getField oL "code", dp), s, [.carrier (offReq fromCity)])) ∧
    (∀ env s fromCity toCity dp toAddr ed o0 rest,
        tokenCacheHit env.now s = true → jsTruthy toAddr = true →
        env.transport (offReq fromCity) = ⟨200, ed, .varr (.cons o0 rest)⟩ →
        arrFilter (fun o => isTrueVal (getField o "is_ltl")) (.cons o0 rest) =
          .nil →
        discoverPoints env s 751 fromCity toCity .vundef dp toAddr =
          ((getField o0 "code", dp), s, [.carrier (offReq fromCity)])) ∧
    (∀ env s fromCity toCity dp toAddr st ed jb,
        tokenCacheHit env.now s = true → jsTruthy toAddr = true →
        env.transport (offReq fromCity) = ⟨st, ed, jb⟩ → respOk st = false →
        discoverPoints env s 751 fromCity toCity .vundef dp toAddr =
          ((.vundef, dp), s, [.carrier (offReq fromCity)])) ∧
    (∀ env s fromCity toCity sp dp toAddr ed o0 rest oL tl,
        tokenCacheHit env.now s = true → jsTruthy sp = true →
        jsTruthy dp = false → jsTruthy toAddr = false →
        env.transport (offReq toCity) = ⟨200, ed, .varr (.cons o0 rest)⟩ →
        arrFilter (fun o => isTrueVal (getField o "is_ltl")) (.cons o0 rest) =
          .cons oL tl →
        discoverPoints env s 751 fromCity toCity sp dp toAddr =
          ((sp, getField oL "code"), s, [.carrier (offReq toCity)])) := by
  refine ⟨?_, ?_, ?_, ?_⟩
  · intro env s fromCity toCity dp toAddr ed o0 rest oL tl hhit htoAddr hT hfilter
    have hreq : doRequest env s (offReq fromCity) =
        (.ok (.varr (.cons o0 rest)), s, [.carrier (offReq fromCity)]) := by
      simp [doRequest, getToken, hhit, hT, respOk]
    simp [discoverPoints, (show jsTruthy JsVal.vundef = false from rfl),
      getOffices_eq, hreq, pickPointFrom, hfilter, htoAddr]
  · intro env s fromCity toCity dp toAddr ed o0 rest hhit htoAddr hT hfilter
    have hreq : doRequest env s (offReq fromCity) =
        (.ok (.varr (.cons o0 rest)), s, [.carrier (offReq fromCity)]) := by
      simp [doRequest, getToken, hhit, hT, respOk]
    simp [discoverPoints, (show jsTruthy JsVal.vundef = false from rfl),
      getOffices_eq, hreq, pickPointFrom, hfilter, htoAddr]
  · intro env s fromCity toCity dp toAddr st ed jb hhit htoAddr hT hst
    have hreq : doRequest env s (offReq fromCity) =
        (.error (.apiError st ed), s, [.carrier (offReq fromCity)]) := by
      simp [doRequest, getToken, hhit, hT, hst]
    simp [discoverPoints, (show jsTruthy JsVal.vundef = false from rfl),
      getOffices_eq, hreq, htoAddr]
  · intro env s fromCity toCity sp dp toAddr ed o0 rest oL tl hhit hsp hdp
      htoAddr hT hfilter
    have hreq : doRequest env s (offReq toCity) =
        (.ok (.varr (.cons o0 rest)), s, [.carrier (offReq toCity)]) := by
      simp [doRequest, getToken, hhit, hT, respOk]
    simp [discoverPoints, hsp, hdp, htoAddr, getOffices_eq, hreq,
      pickPointFrom, hfilter]

/-- A non-LTL pickup point used by the C8 witness. -/
def c8OffPlain : JsVal :=
  .vobj (.cons "code" (.vstr "NSK1") (.cons "is_ltl" (.vbool false) .nil))

/-- An LTL-flagged pickup point used by the C8 witness. -/
def c8OffLtl : JsVal :=
  .vobj (.cons "code" (.vstr "NSK2") (.cons "is_ltl" (.vbool true) .nil))

/-- A world answering the discovery query for city 44 with one non-LTL and
one LTL point. -/
def c8Env : Env := ⟨0, "2024-01-01T00:00:00+0000", .success "tok" none,
  fun r =>
    if r.path == "/deliverypoints?city_code=44&lang=rus&type=PVZ&size=10"
    then ⟨200, .vnull, .varr (.cons c8OffPlain (.cons c8OffLtl .nil))⟩
    else ⟨500, .vstr "no such endpoint", .vnull⟩⟩

/-- Witness for C8: with one non-LTL and one LTL point returned, the
LTL-flagged point's code (`"NSK2"`) is selected, and a failing discovery
query (city 270 here) is swallowed. -/
theorem pickup_point_discovery_witness :
    discoverPoints c8Env ⟨some "tok", some 10⟩ 751 44 270 .vundef .vundef
        (.vstr "ул. Ленина, 1") =
      ((.vstr "NSK2", .vundef), ⟨some "tok", some 10⟩, [.carrier (offReq 44)]) ∧
    discoverPoints c8Env ⟨some "tok", some 10⟩ 751 270 99 .vundef .vundef
        (.vstr "x") =
      ((.vundef, .vundef), ⟨some "tok", some 10⟩, [.carrier (offReq 270)]) := by
  constructor
  · have h := pickup_point_discovery.1 c8Env ⟨some "tok", some 10⟩ 44 270
      .vundef (.vstr "ул. Ленина, 1") .vnull c8OffPlain (.cons c8OffLtl .nil)
      c8OffLtl .nil (by decide) (by decide) rfl rfl
    simpa [c8OffLtl, getField, objGet, fieldsLookup] using h
  · exact pickup_point_discovery.2.2.1 c8Env ⟨some "tok", some 10⟩ 270 99
      .vundef (.vstr "x") 500 (.vstr "no such endpoint") .vnull
      (by decide) (by decide) rfl rfl

/-! ## C6 -/

/-- A tariff entry appearing twice in the fallback quote of the C6
counterexample. -/
def c6Dup : JsVal :=
  .vobj (.cons "tariff_code" (.vnum 136)
    (.cons "tariff_name" (.vstr "Посылка")
    (.cons "delivery_mode" (.vnum 1) .nil)))

/-- A quote response whose `tariff_codes` lists the same tariff twice. -/
def c6Quote : JsVal :=
  .vobj (.cons "tariff_codes" (.varr (.cons c6Dup (.cons c6Dup .nil))) .nil)

/-- A world whose direct tariffs endpoint answers 404 and whose quote
endpoint returns `c6Quote`. -/
def c6Env404 : Env := ⟨0, "2024-01-01T00:00:00+0000", .success "tok" none,
  fun r =>
    if r.path == "/calculator/tariffs"
    then ⟨404, .vobj (.cons "message" (.vstr "Not Found") .nil), .vnull⟩
    else ⟨200, .vnull, c6Quote⟩⟩

/-- A world whose direct tariffs endpoint fails with status 500 but whose
error body happens to contain the digits `404`. -/
def c6Env500 : Env := ⟨0, "2024-01-01T00:00:00+0000", .success "tok" none,
  fun r =>
    if r.path == "/calculator/tariffs"
    then ⟨500, .vobj (.cons "message" (.vstr "upstream said 404") .nil), .vnull⟩
    else ⟨200, .vnull, .vobj (.cons "tariff_codes" (.varr .nil) .nil)⟩⟩

/-- Counterexample for C6 as stated: (a) on a 404 the fallback result is NOT
de-duplicated — a duplicated tariff in the quote yields a duplicated entry
in the returned list; (b) a failure whose status is 500 (not 404) does NOT
propagate unchanged — because the error-message text contains "404", the
fallback runs and the call succeeds. -/
theorem getTariffs_fallback_cex :
    (getTariffs c6Env404 ⟨none, none⟩ "rus" none none).1 =
      .ok (.varr (.cons (tariffsProj c6Dup) (.cons (tariffsProj c6Dup) .nil))) ∧
    ¬ ([tariffsProj c6Dup, tariffsProj c6Dup].Nodup) ∧
    respOk 500 = false ∧
    (getTariffs c6Env500 ⟨none, none⟩ "rus" none none).1 = .ok (.varr .nil) := by
  refine ⟨rfl, by simp, rfl, rfl⟩

/-- C6 (amended): `getTariffs` falls back exactly when the caught error's
message contains the substring `"404"` — which every status-404 failure
does (first part) — and the fallback returns the per-tariff projections of
the quote's `tariff_codes` array in order, without de-duplication (third
part); an error whose message does not contain `"404"` propagates
unchanged (second part). -/
theorem getTariffs_fallback_behavior :
    (∀ d, strIncludes (CdekError.message (.apiError 404 d)) "404" = true) ∧
    (∀ env s lang fo tco e s1 log1,
        doRequest env s ⟨"/calculator/tariffs", "GET", none, [("X-User-Lang", lang)]⟩ =
          (.error e, s1, log1) →
        strIncludes e.message "404" = false →
        getTariffs env s lang fo tco = (.error e, s1, log1)) ∧
    (∀ env s lang fo tco e s1 log1 result s2 log2 ts,
        doRequest env s ⟨"/calculator/tariffs", "GET", none, [("X-User-Lang", lang)]⟩ =
          (.error e, s1, log1) →
        strIncludes e.message "404" = true →
        calculateDelivery env s1 (fallbackQuoteParams fo tco) = (.ok result, s2, log2) →
        getField result "tariff_codes" = .varr ts →
        getTariffs env s lang fo tco =
          (.ok (.varr (arrMap tariffsProj ts)), s2, log1 ++ log2)) := by
  refine ⟨?_, ?_, ?_⟩
  · intro d
    have h : strIncludes ("CDEK API Error (" ++ toString (404 : Nat) ++ "): ")
        "404" = true := by decide
    simp only [CdekError.message, ← String.append_assoc]
    exact strIncludes_append_left _ _ _ h
  · intro env s lang fo tco e s1 log1 h1 h2
    simp [getTariffs, h1, h2]
  · intro env s lang fo tco e s1 log1 result s2 log2 ts h1 h2 h3 h4
    simp [getTariffs, h1, h2, h3, h4, jsOrVal, jsTruthy]

/-- The body of the fallback quote between the default cities. -/
def c6FallbackBody : JsVal :=
  match calculateDeliveryBody (fallbackQuoteParams none none) with
  | .error _ => .vundef
  | .ok b => b

/-- Witness for C6: in the concrete 404 world the direct request fails, the
fallback quote runs between cities 44 and 270, and the duplicated
`tariff_codes` array is returned projected, in order. -/
theorem getTariffs_fallback_behavior_witness :
    getTariffs c6Env404 ⟨none, none⟩ "rus" none none =
      (.ok (.varr (arrMap tariffsProj (.cons c6Dup (.cons c6Dup .nil)))),
        ⟨some "tok", some 3540000⟩,
        [.tokenExchange,
          .carrier ⟨"/calculator/tariffs", "GET", none, [("X-User-Lang", "rus")]⟩] ++
        [.carrier ⟨"/calculator/tarifflist", "POST", some c6FallbackBody, []⟩]) := by
  exact getTariffs_fallback_behavior.2.2 c6Env404 ⟨none, none⟩ "rus" none none
    (.apiError 404 (.vobj (.cons "message" (.vstr "Not Found") .nil)))
    ⟨some "tok", some 3540000⟩
    [.tokenExchange,
      .carrier ⟨"/calculator/tariffs", "GET", none, [("X-User-Lang", "rus")]⟩]
    c6Quote ⟨some "tok", some 3540000⟩
    [.carrier ⟨"/calculator/tarifflist", "POST", some c6FallbackBody, []⟩]
    (.cons c6Dup (.cons c6Dup .nil)) rfl (by decide) rfl rfl
